import Mathlib

/-!
Verification of the metric-helper catalogs in `src/nodejs/awsx/sqs/metrics.ts`
(the AWS/SQS namespace and the AWS/Cognito namespace).

The file shallowly embeds the two `metric` builder functions and every exported
helper.  The `cloudwatch.Metric` class, the `MetricChange` shape and the
`withDimensions` combinator live in `../cloudwatch`, which is not part of the
source tree; those are modelled from the spec (each such definition carries a
doc comment saying so).  Everything else is translated directly from the
TypeScript source:

* optional / possibly-`undefined` TypeScript fields become `Option`;
* `pulumi.Input<string>` attribute values become `String`;
* the `Record<string, Input<string>>` dimension dictionary becomes an
  association list `List (String × String)` with a JavaScript-style
  assignment operation `recordSet`;
* the object spreads `{ namespace: ..., name: ..., ...change }` and
  `{ unit: "...", ...change }` become explicit field-by-field merges in which
  a field present on `change` (a `some`) wins over the literal written before
  the spread, exactly as in JavaScript.
-/

/-- An `aws.sqs.Queue` resource reference: only its `name` attribute is read
by this layer (`change.queue.name`). -/
structure Queue where
  name : String
deriving DecidableEq

/-- An `aws.cognito.UserPool` resource reference: only its `id` attribute is
read by this layer (`change.userPool.id`). -/
structure UserPool where
  id : String
deriving DecidableEq

/-- A JavaScript object used as a string-keyed dictionary, in insertion
order. -/
abbrev Dimensions := List (String × String)

/-- `r.k = v` on a JavaScript dictionary: overwrite the entry when the key is
present, otherwise append it. -/
def recordSet (r : Dimensions) (k v : String) : Dimensions :=
  if r.any (fun p => p.1 = k) then
    r.map (fun p => if p.1 = k then (k, v) else p)
  else
    r ++ [(k, v)]

/-- Modelled from the spec: `cloudwatch.MetricChange` (file `../cloudwatch`
is not under the source tree).  Per the spec it is "a generic 'metric change'
configuration shape with optional `unit`, `statistic`, `period` fields" that
may also carry a dimension-shaped field; it has no `namespace` or `name`
field. -/
structure MetricChange where
  unit : Option String := none
  statistic : Option String := none
  period : Option Nat := none
  dimensions : Option Dimensions := none
deriving DecidableEq

/-- `SqsMetricChange extends cloudwatch.MetricChange` with an optional
`queue` reference. -/
structure SqsMetricChange extends MetricChange where
  queue : Option Queue := none
deriving DecidableEq

/-- `CognitoMetricChange extends cloudwatch.MetricChange` with an optional
`userPool` reference. -/
structure CognitoMetricChange extends MetricChange where
  userPool : Option UserPool := none
deriving DecidableEq

/-- The argument object literal handed to `new cloudwatch.Metric({...})` by
either builder: the fields `namespace` and `name` written first, then the
spread of `change` (including the raw resource reference it may carry). -/
structure MetricArgs where
  namespace_ : String
  name : String
  unit : Option String := none
  statistic : Option String := none
  period : Option Nat := none
  dimensions : Option Dimensions := none
  queue : Option Queue := none
  userPool : Option UserPool := none
deriving DecidableEq

/-- Modelled from the spec: the `cloudwatch.Metric` descriptor value (file
`../cloudwatch` is not under the source tree).  Per the spec it associates "a
namespace, a metric name, a set of dimension key/value pairs, and override
fields (statistic, period, unit) into a single immutable descriptor". -/
structure Metric where
  namespace_ : String
  name : String
  unit : Option String
  statistic : Option String
  period : Option Nat
  dimensions : Dimensions
deriving DecidableEq

/-- Modelled from the spec: the `cloudwatch.Metric` constructor (not under the
source tree).  The descriptor's fields are "the union of `{namespace, name}`"
and "the fields of `change` (spread first)"; an absent dimension field gives
an empty dimension set. -/
def Metric.ofArgs (args : MetricArgs) : Metric :=
  { namespace_ := args.namespace_
    name := args.name
    unit := args.unit
    statistic := args.statistic
    period := args.period
    dimensions := args.dimensions.getD [] }

/-- Modelled from the spec: `Metric.withDimensions` (not under the source
tree).  Per the spec the computed dimensions are "applied last" "as the
resolved dimension set", taking precedence over "anything that might
otherwise populate that slot from `change`": the descriptor's dimension set
is replaced by the given one. -/
def Metric.withDimensions (m : Metric) (dims : Dimensions) : Metric :=
  { m with dimensions := dims }

/-- The closed string-literal enumeration `SqsMetricName`. -/
inductive SqsMetricName
  | ApproximateAgeOfOldestMessage
  | ApproximateNumberOfMessagesDelayed
  | ApproximateNumberOfMessagesNotVisible
  | ApproximateNumberOfMessagesVisible
  | NumberOfEmptyReceives
  | NumberOfMessagesDeleted
  | NumberOfMessagesReceived
  | NumberOfMessagesSent
  | SentMessageSize
deriving DecidableEq

/-- The string carried by each `SqsMetricName` literal. -/
def SqsMetricName.str : SqsMetricName → String
  | .ApproximateAgeOfOldestMessage => "ApproximateAgeOfOldestMessage"
  | .ApproximateNumberOfMessagesDelayed => "ApproximateNumberOfMessagesDelayed"
  | .ApproximateNumberOfMessagesNotVisible => "ApproximateNumberOfMessagesNotVisible"
  | .ApproximateNumberOfMessagesVisible => "ApproximateNumberOfMessagesVisible"
  | .NumberOfEmptyReceives => "NumberOfEmptyReceives"
  | .NumberOfMessagesDeleted => "NumberOfMessagesDeleted"
  | .NumberOfMessagesReceived => "NumberOfMessagesReceived"
  | .NumberOfMessagesSent => "NumberOfMessagesSent"
  | .SentMessageSize => "SentMessageSize"

/-- The closed string-literal enumeration `CognitoMetricName`. -/
inductive CognitoMetricName
  | CompromisedCredentialsRisk
  | AccountTakeOverRisk
  | OverrideBlock
  | Risk
  | NoRisk
deriving DecidableEq

/-- The string carried by each `CognitoMetricName` literal. -/
def CognitoMetricName.str : CognitoMetricName → String
  | .CompromisedCredentialsRisk => "CompromisedCredentialsRisk"
  | .AccountTakeOverRisk => "AccountTakeOverRisk"
  | .OverrideBlock => "OverrideBlock"
  | .Risk => "Risk"
  | .NoRisk => "NoRisk"

/-- The object literal `{ namespace: "AWS/SQS", name: metricName, ...change }`
built by the SQS `metric` function: `change` is spread after the two literal
fields, so every field present on `change` (including the raw `queue`
reference) lands in the constructor argument, while `namespace` and `name`
are not fields of `SqsMetricChange` and stay as written. -/
def sqsMetricArgs (metricName : SqsMetricName) (change : SqsMetricChange) : MetricArgs :=
  { namespace_ := "AWS/SQS"
    name := metricName.str
    unit := change.unit
    statistic := change.statistic
    period := change.period
    dimensions := change.dimensions
    queue := change.queue }

/-- The object literal `{ namespace: "AWS/Cognito", name: metricName,
...change }` built by the Cognito `metric` function. -/
def cognitoMetricArgs (metricName : CognitoMetricName) (change : CognitoMetricChange) : MetricArgs :=
  { namespace_ := "AWS/Cognito"
    name := metricName.str
    unit := change.unit
    statistic := change.statistic
    period := change.period
    dimensions := change.dimensions
    userPool := change.userPool }

namespace Sqs

/-- `function metric(metricName, change = {})` of the SQS namespace:
build a fresh `dimensions` dictionary, assign `QueueName` when
`change.queue !== undefined`, construct the `Metric` from the spread
argument object and apply `withDimensions`. -/
def metric (metricName : SqsMetricName) (change : SqsMetricChange := {}) : Metric :=
  let dimensions : Dimensions :=
    match change.queue with
    | some q => recordSet [] "QueueName" q.name
    | none => []
  (Metric.ofArgs (sqsMetricArgs metricName change)).withDimensions dimensions

/-- The object literal `{ unit: u, ...change }` used by every SQS helper:
when the optional `change` argument is `undefined` the spread adds nothing;
otherwise a `unit` present on `change` overwrites the literal default. -/
def spreadDefaultUnit (u : String) : Option SqsMetricChange → SqsMetricChange
  | none => { unit := some u }
  | some c => { c with unit := c.unit <|> some u }

/-- `export function approximateAgeOfOldestMessage(change?)`. -/
def approximateAgeOfOldestMessage (change : Option SqsMetricChange := none) : Metric :=
  metric .ApproximateAgeOfOldestMessage (spreadDefaultUnit "Seconds" change)

/-- `export function approximateNumberOfMessagesDelayed(change?)`. -/
def approximateNumberOfMessagesDelayed (change : Option SqsMetricChange := none) : Metric :=
  metric .ApproximateNumberOfMessagesDelayed (spreadDefaultUnit "Count" change)

/-- `export function approximateNumberOfMessagesNotVisible(change?)`. -/
def approximateNumberOfMessagesNotVisible (change : Option SqsMetricChange := none) : Metric :=
  metric .ApproximateNumberOfMessagesNotVisible (spreadDefaultUnit "Count" change)

/-- `export function approximateNumberOfMessagesVisible(change?)`. -/
def approximateNumberOfMessagesVisible (change : Option SqsMetricChange := none) : Metric :=
  metric .ApproximateNumberOfMessagesVisible (spreadDefaultUnit "Count" change)

/-- `export function numberOfEmptyReceives(change?)`. -/
def numberOfEmptyReceives (change : Option SqsMetricChange := none) : Metric :=
  metric .NumberOfEmptyReceives (spreadDefaultUnit "Count" change)

/-- `export function numberOfMessagesDeleted(change?)`. -/
def numberOfMessagesDeleted (change : Option SqsMetricChange := none) : Metric :=
  metric .NumberOfMessagesDeleted (spreadDefaultUnit "Count" change)

/-- `export function numberOfMessagesReceived(change?)`. -/
def numberOfMessagesReceived (change : Option SqsMetricChange := none) : Metric :=
  metric .NumberOfMessagesReceived (spreadDefaultUnit "Count" change)

/-- `export function numberOfMessagesSent(change?)`. -/
def numberOfMessagesSent (change : Option SqsMetricChange := none) : Metric :=
  metric .NumberOfMessagesSent (spreadDefaultUnit "Count" change)

/-- `export function sentMessageSize(change?)`. -/
def sentMessageSize (change : Option SqsMetricChange := none) : Metric :=
  metric .SentMessageSize (spreadDefaultUnit "Bytes" change)

end Sqs

namespace Cognito

/-- `function metric(metricName, change = {})` of the Cognito namespace:
build a fresh `dimensions` dictionary, assign `UserPoolId` when
`change.userPool !== undefined`, construct the `Metric` from the spread
argument object and apply `withDimensions`. -/
def metric (metricName : CognitoMetricName) (change : CognitoMetricChange := {}) : Metric :=
  let dimensions : Dimensions :=
    match change.userPool with
    | some p => recordSet [] "UserPoolId" p.id
    | none => []
  (Metric.ofArgs (cognitoMetricArgs metricName change)).withDimensions dimensions

/-- `export function compromisedCredentialsRisk(change?)`: the optional
argument is forwarded as-is, an `undefined` one triggering the `= {}`
parameter default of `metric`. -/
def compromisedCredentialsRisk (change : Option CognitoMetricChange := none) : Metric :=
  metric .CompromisedCredentialsRisk (change.getD {})

/-- `export function accountTakeOverRisk(change?)`. -/
def accountTakeOverRisk (change : Option CognitoMetricChange := none) : Metric :=
  metric .AccountTakeOverRisk (change.getD {})

/-- `export function overrideBlock(change?)`. -/
def overrideBlock (change : Option CognitoMetricChange := none) : Metric :=
  metric .OverrideBlock (change.getD {})

/-- `export function risk(change?)`. -/
def risk (change : Option CognitoMetricChange := none) : Metric :=
  metric .Risk (change.getD {})

/-- `export function noRisk(change?)`. -/
def noRisk (change : Option CognitoMetricChange := none) : Metric :=
  metric .NoRisk (change.getD {})

end Cognito

/-- The mutable locals visible while the SQS `metric` body runs: the
caller-supplied `change` object and the `dimensions` dictionary. -/
structure SqsEvalState where
  changeObj : SqsMetricChange
  dims : Dimensions
deriving DecidableEq

/-- The mutable locals visible while the Cognito `metric` body runs. -/
structure CognitoEvalState where
  changeObj : CognitoMetricChange
  dims : Dimensions
deriving DecidableEq

namespace Sqs

/-- The SQS `metric` body with every JavaScript statement made an explicit
state transition: `const dimensions = {}` resets the dictionary, the `if`
performs the single assignment `dimensions.QueueName = change.queue.name`,
and the return value is built from the final state.  No statement of the
source writes to `change`, so no transition touches `changeObj`. -/
def metricSt (metricName : SqsMetricName) (s : SqsEvalState) : Metric × SqsEvalState :=
  let s1 := { s with dims := [] }
  let s2 :=
    match s1.changeObj.queue with
    | some q => { s1 with dims := recordSet s1.dims "QueueName" q.name }
    | none => s1
  ((Metric.ofArgs (sqsMetricArgs metricName s2.changeObj)).withDimensions s2.dims, s2)

end Sqs

namespace Cognito

/-- The Cognito `metric` body with every JavaScript statement made an
explicit state transition, as for the SQS one. -/
def metricSt (metricName : CognitoMetricName) (s : CognitoEvalState) : Metric × CognitoEvalState :=
  let s1 := { s with dims := [] }
  let s2 :=
    match s1.changeObj.userPool with
    | some p => { s1 with dims := recordSet s1.dims "UserPoolId" p.id }
    | none => s1
  ((Metric.ofArgs (cognitoMetricArgs metricName s2.changeObj)).withDimensions s2.dims, s2)

end Cognito

/-- Claim C1: for every metric helper in either service catalog and for every
change object passed to it (including an absent one), the returned descriptor
has its namespace and name equal to the documented per-helper constants —
`"AWS/SQS"` with the corresponding SQS metric name for the nine SQS helpers,
`"AWS/Cognito"` with the corresponding Cognito metric name for the five
Cognito helpers — regardless of any fields carried by the change object. -/
theorem c1_namespace_and_name_are_constants :
    (∀ change : Option SqsMetricChange,
      (Sqs.approximateAgeOfOldestMessage change).namespace_ = "AWS/SQS" ∧
      (Sqs.approximateAgeOfOldestMessage change).name = "ApproximateAgeOfOldestMessage" ∧
      (Sqs.approximateNumberOfMessagesDelayed change).namespace_ = "AWS/SQS" ∧
      (Sqs.approximateNumberOfMessagesDelayed change).name = "ApproximateNumberOfMessagesDelayed" ∧
      (Sqs.approximateNumberOfMessagesNotVisible change).namespace_ = "AWS/SQS" ∧
      (Sqs.approximateNumberOfMessagesNotVisible change).name = "ApproximateNumberOfMessagesNotVisible" ∧
      (Sqs.approximateNumberOfMessagesVisible change).namespace_ = "AWS/SQS" ∧
      (Sqs.approximateNumberOfMessagesVisible change).name = "ApproximateNumberOfMessagesVisible" ∧
      (Sqs.numberOfEmptyReceives change).namespace_ = "AWS/SQS" ∧
      (Sqs.numberOfEmptyReceives change).name = "NumberOfEmptyReceives" ∧
      (Sqs.numberOfMessagesDeleted change).namespace_ = "AWS/SQS" ∧
      (Sqs.numberOfMessagesDeleted change).name = "NumberOfMessagesDeleted" ∧
      (Sqs.numberOfMessagesReceived change).namespace_ = "AWS/SQS" ∧
      (Sqs.numberOfMessagesReceived change).name = "NumberOfMessagesReceived" ∧
      (Sqs.numberOfMessagesSent change).namespace_ = "AWS/SQS" ∧
      (Sqs.numberOfMessagesSent change).name = "NumberOfMessagesSent" ∧
      (Sqs.sentMessageSize change).namespace_ = "AWS/SQS" ∧
      (Sqs.sentMessageSize change).name = "SentMessageSize") ∧
    (∀ change : Option CognitoMetricChange,
      (Cognito.compromisedCredentialsRisk change).namespace_ = "AWS/Cognito" ∧
      (Cognito.compromisedCredentialsRisk change).name = "CompromisedCredentialsRisk" ∧
      (Cognito.accountTakeOverRisk change).namespace_ = "AWS/Cognito" ∧
      (Cognito.accountTakeOverRisk change).name = "AccountTakeOverRisk" ∧
      (Cognito.overrideBlock change).namespace_ = "AWS/Cognito" ∧
      (Cognito.overrideBlock change).name = "OverrideBlock" ∧
      (Cognito.risk change).namespace_ = "AWS/Cognito" ∧
      (Cognito.risk change).name = "Risk" ∧
      (Cognito.noRisk change).namespace_ = "AWS/Cognito" ∧
      (Cognito.noRisk change).name = "NoRisk") := by
  constructor <;> intro change <;> cases change <;> repeat' apply And.intro
  all_goals rfl

/-- Claim C3: calling any helper with a resource reference yields a
descriptor whose dimension map is exactly the one-entry map from the
service's fixed dimension key (`QueueName` for SQS, `UserPoolId` for
Cognito) to the reference's identifying attribute (the queue's `name`, the
user pool's `id`). -/
theorem c3_reference_gives_exactly_one_dimension
    (cs : SqsMetricChange) (cc : CognitoMetricChange) (q : Queue) (p : UserPool)
    (hsq : cs.queue = some q) (hcp : cc.userPool = some p) :
    (Sqs.approximateAgeOfOldestMessage (some cs)).dimensions = [("QueueName", q.name)] ∧
    (Sqs.approximateNumberOfMessagesDelayed (some cs)).dimensions = [("QueueName", q.name)] ∧
    (Sqs.approximateNumberOfMessagesNotVisible (some cs)).dimensions = [("QueueName", q.name)] ∧
    (Sqs.approximateNumberOfMessagesVisible (some cs)).dimensions = [("QueueName", q.name)] ∧
    (Sqs.numberOfEmptyReceives (some cs)).dimensions = [("QueueName", q.name)] ∧
    (Sqs.numberOfMessagesDeleted (some cs)).dimensions = [("QueueName", q.name)] ∧
    (Sqs.numberOfMessagesReceived (some cs)).dimensions = [("QueueName", q.name)] ∧
    (Sqs.numberOfMessagesSent (some cs)).dimensions = [("QueueName", q.name)] ∧
    (Sqs.sentMessageSize (some cs)).dimensions = [("QueueName", q.name)] ∧
    (Cognito.compromisedCredentialsRisk (some cc)).dimensions = [("UserPoolId", p.id)] ∧
    (Cognito.accountTakeOverRisk (some cc)).dimensions = [("UserPoolId", p.id)] ∧
    (Cognito.overrideBlock (some cc)).dimensions = [("UserPoolId", p.id)] ∧
    (Cognito.risk (some cc)).dimensions = [("UserPoolId", p.id)] ∧
    (Cognito.noRisk (some cc)).dimensions = [("UserPoolId", p.id)] := by
  repeat' apply And.intro
  all_goals
    simp [Sqs.approximateAgeOfOldestMessage, Sqs.approximateNumberOfMessagesDelayed,
      Sqs.approximateNumberOfMessagesNotVisible, Sqs.approximateNumberOfMessagesVisible,
      Sqs.numberOfEmptyReceives, Sqs.numberOfMessagesDeleted, Sqs.numberOfMessagesReceived,
      Sqs.numberOfMessagesSent, Sqs.sentMessageSize, Cognito.compromisedCredentialsRisk,
      Cognito.accountTakeOverRisk, Cognito.overrideBlock, Cognito.risk, Cognito.noRisk,
      Sqs.metric, Cognito.metric, Sqs.spreadDefaultUnit, Metric.ofArgs, Metric.withDimensions,
      sqsMetricArgs, cognitoMetricArgs, recordSet, hsq, hcp]

/-- Claim C3, witness: the theorem applied to a concrete queue and a concrete
user pool. -/
theorem c3_witness :
    ({ queue := some { name := "my-queue" } } : SqsMetricChange).queue = some { name := "my-queue" } ∧
    ({ userPool := some { id := "pool-17" } } : CognitoMetricChange).userPool = some { id := "pool-17" } ∧
    (Sqs.sentMessageSize (some { queue := some { name := "my-queue" } })).dimensions
      = [("QueueName", "my-queue")] ∧
    (Cognito.risk (some { userPool := some { id := "pool-17" } })).dimensions
      = [("UserPoolId", "pool-17")] :=
  ⟨rfl, rfl,
    (c3_reference_gives_exactly_one_dimension
      { queue := some { name := "my-queue" } } { userPool := some { id := "pool-17" } }
      { name := "my-queue" } { id := "pool-17" } rfl rfl).2.2.2.2.2.2.2.2.1,
    (c3_reference_gives_exactly_one_dimension
      { queue := some { name := "my-queue" } } { userPool := some { id := "pool-17" } }
      { name := "my-queue" } { id := "pool-17" } rfl rfl).2.2.2.2.2.2.2.2.2.2.2.2.1⟩

/-- Claim C2: when the change object carries a resource reference, the
derived dimension survives the merge and takes precedence over any
dimension-shaped field supplied via the change object (its `dimensions`
field is quantified over here, so any conflicting value is overridden),
while non-dimension override fields such as `unit` are preserved: with
`change = {unit: u, ...}` plus a reference, the result has unit `u` and the
derived one-entry dimension map. -/
theorem c2_dimension_precedence_and_unit_preserved
    (cs : SqsMetricChange) (cc : CognitoMetricChange) (u v : String) (q : Queue) (p : UserPool)
    (hsu : cs.unit = some u) (hsq : cs.queue = some q)
    (hcu : cc.unit = some v) (hcp : cc.userPool = some p) :
    ((Sqs.approximateAgeOfOldestMessage (some cs)).unit = some u ∧
      (Sqs.approximateAgeOfOldestMessage (some cs)).dimensions = [("QueueName", q.name)]) ∧
    ((Sqs.approximateNumberOfMessagesDelayed (some cs)).unit = some u ∧
      (Sqs.approximateNumberOfMessagesDelayed (some cs)).dimensions = [("QueueName", q.name)]) ∧
    ((Sqs.approximateNumberOfMessagesNotVisible (some cs)).unit = some u ∧
      (Sqs.approximateNumberOfMessagesNotVisible (some cs)).dimensions = [("QueueName", q.name)]) ∧
    ((Sqs.approximateNumberOfMessagesVisible (some cs)).unit = some u ∧
      (Sqs.approximateNumberOfMessagesVisible (some cs)).dimensions = [("QueueName", q.name)]) ∧
    ((Sqs.numberOfEmptyReceives (some cs)).unit = some u ∧
      (Sqs.numberOfEmptyReceives (some cs)).dimensions = [("QueueName", q.name)]) ∧
    ((Sqs.numberOfMessagesDeleted (some cs)).unit = some u ∧
      (Sqs.numberOfMessagesDeleted (some cs)).dimensions = [("QueueName", q.name)]) ∧
    ((Sqs.numberOfMessagesReceived (some cs)).unit = some u ∧
      (Sqs.numberOfMessagesReceived (some cs)).dimensions = [("QueueName", q.name)]) ∧
    ((Sqs.numberOfMessagesSent (some cs)).unit = some u ∧
      (Sqs.numberOfMessagesSent (some cs)).dimensions = [("QueueName", q.name)]) ∧
    ((Sqs.sentMessageSize (some cs)).unit = some u ∧
      (Sqs.sentMessageSize (some cs)).dimensions = [("QueueName", q.name)]) ∧
    ((Cognito.compromisedCredentialsRisk (some cc)).unit = some v ∧
      (Cognito.compromisedCredentialsRisk (some cc)).dimensions = [("UserPoolId", p.id)]) ∧
    ((Cognito.accountTakeOverRisk (some cc)).unit = some v ∧
      (Cognito.accountTakeOverRisk (some cc)).dimensions = [("UserPoolId", p.id)]) ∧
    ((Cognito.overrideBlock (some cc)).unit = some v ∧
      (Cognito.overrideBlock (some cc)).dimensions = [("UserPoolId", p.id)]) ∧
    ((Cognito.risk (some cc)).unit = some v ∧
      (Cognito.risk (some cc)).dimensions = [("UserPoolId", p.id)]) ∧
    ((Cognito.noRisk (some cc)).unit = some v ∧
      (Cognito.noRisk (some cc)).dimensions = [("UserPoolId", p.id)]) := by
  repeat' apply And.intro
  all_goals
    simp [Sqs.approximateAgeOfOldestMessage, Sqs.approximateNumberOfMessagesDelayed,
      Sqs.approximateNumberOfMessagesNotVisible, Sqs.approximateNumberOfMessagesVisible,
      Sqs.numberOfEmptyReceives, Sqs.numberOfMessagesDeleted, Sqs.numberOfMessagesReceived,
      Sqs.numberOfMessagesSent, Sqs.sentMessageSize, Cognito.compromisedCredentialsRisk,
      Cognito.accountTakeOverRisk, Cognito.overrideBlock, Cognito.risk, Cognito.noRisk,
      Sqs.metric, Cognito.metric, Sqs.spreadDefaultUnit, Metric.ofArgs, Metric.withDimensions,
      sqsMetricArgs, cognitoMetricArgs, recordSet, hsu, hsq, hcu, hcp]

/-- Claim C2, witness: the theorem applied to the spec's example
`change = {unit: "Count"}` plus a resource reference, for one helper of each
catalog. -/
theorem c2_witness :
    ({ unit := some "Count", queue := some { name := "q1" } } : SqsMetricChange).unit = some "Count" ∧
    ({ unit := some "Count", queue := some { name := "q1" } } : SqsMetricChange).queue = some { name := "q1" } ∧
    ({ unit := some "Count", userPool := some { id := "p1" } } : CognitoMetricChange).unit = some "Count" ∧
    ({ unit := some "Count", userPool := some { id := "p1" } } : CognitoMetricChange).userPool = some { id := "p1" } ∧
    ((Sqs.approximateAgeOfOldestMessage
        (some { unit := some "Count", queue := some { name := "q1" } })).unit = some "Count" ∧
      (Sqs.approximateAgeOfOldestMessage
        (some { unit := some "Count", queue := some { name := "q1" } })).dimensions
        = [("QueueName", "q1")]) ∧
    ((Cognito.noRisk (some { unit := some "Count", userPool := some { id := "p1" } })).unit = some "Count" ∧
      (Cognito.noRisk (some { unit := some "Count", userPool := some { id := "p1" } })).dimensions
        = [("UserPoolId", "p1")]) :=
  ⟨rfl, rfl, rfl, rfl,
    (c2_dimension_precedence_and_unit_preserved
      { unit := some "Count", queue := some { name := "q1" } }
      { unit := some "Count", userPool := some { id := "p1" } }
      "Count" "Count" { name := "q1" } { id := "p1" } rfl rfl rfl rfl).1,
    (c2_dimension_precedence_and_unit_preserved
      { unit := some "Count", queue := some { name := "q1" } }
      { unit := some "Count", userPool := some { id := "p1" } }
      "Count" "Count" { name := "q1" } { id := "p1" } rfl rfl rfl rfl).2.2.2.2.2.2.2.2.2.2.2.2.2⟩

/-- Claim C4, counterexample: a change object whose `queue` field is
undefined may still carry a `unit` override, and then the descriptor's unit
is the override, not the helper's documented default (`"Bytes"` for
`sentMessageSize`).  So "no resource reference implies the documented
default unit" fails as stated. -/
theorem c4_counterexample :
    ({ unit := some "Count" } : SqsMetricChange).queue = none ∧
    (Sqs.sentMessageSize (some { unit := some "Count" })).unit = some "Count" ∧
    (Sqs.sentMessageSize (some { unit := some "Count" })).unit ≠ some "Bytes" := by
  refine ⟨rfl, rfl, ?_⟩
  decide

/-- Claim C4 as amended: calling any helper with no resource reference — no
change object at all, or a change whose `queue`/`userPool` field is
undefined — yields a descriptor with an empty dimension map, whatever else
the change carries; and its unit is the helper's documented default provided
the change supplies no unit of its own (for the five Cognito helpers no
default unit is documented and the unit is then unset). -/
theorem c4_no_reference_empty_dimensions_and_default_unit
    (cs : SqsMetricChange) (cc : CognitoMetricChange)
    (hsq : cs.queue = none) (hcp : cc.userPool = none) :
    (((Sqs.approximateAgeOfOldestMessage none).dimensions = [] ∧
        (Sqs.approximateAgeOfOldestMessage (some cs)).dimensions = []) ∧
      ((Sqs.approximateNumberOfMessagesDelayed none).dimensions = [] ∧
        (Sqs.approximateNumberOfMessagesDelayed (some cs)).dimensions = []) ∧
      ((Sqs.approximateNumberOfMessagesNotVisible none).dimensions = [] ∧
        (Sqs.approximateNumberOfMessagesNotVisible (some cs)).dimensions = []) ∧
      ((Sqs.approximateNumberOfMessagesVisible none).dimensions = [] ∧
        (Sqs.approximateNumberOfMessagesVisible (some cs)).dimensions = []) ∧
      ((Sqs.numberOfEmptyReceives none).dimensions = [] ∧
        (Sqs.numberOfEmptyReceives (some cs)).dimensions = []) ∧
      ((Sqs.numberOfMessagesDeleted none).dimensions = [] ∧
        (Sqs.numberOfMessagesDeleted (some cs)).dimensions = []) ∧
      ((Sqs.numberOfMessagesReceived none).dimensions = [] ∧
        (Sqs.numberOfMessagesReceived (some cs)).dimensions = []) ∧
      ((Sqs.numberOfMessagesSent none).dimensions = [] ∧
        (Sqs.numberOfMessagesSent (some cs)).dimensions = []) ∧
      ((Sqs.sentMessageSize none).dimensions = [] ∧
        (Sqs.sentMessageSize (some cs)).dimensions = []) ∧
      ((Cognito.compromisedCredentialsRisk none).dimensions = [] ∧
        (Cognito.compromisedCredentialsRisk (some cc)).dimensions = []) ∧
      ((Cognito.accountTakeOverRisk none).dimensions = [] ∧
        (Cognito.accountTakeOverRisk (some cc)).dimensions = []) ∧
      ((Cognito.overrideBlock none).dimensions = [] ∧
        (Cognito.overrideBlock (some cc)).dimensions = []) ∧
      ((Cognito.risk none).dimensions = [] ∧
        (Cognito.risk (some cc)).dimensions = []) ∧
      ((Cognito.noRisk none).dimensions = [] ∧
        (Cognito.noRisk (some cc)).dimensions = [])) ∧
    ((Sqs.approximateAgeOfOldestMessage none).unit = some "Seconds" ∧
      (Sqs.approximateNumberOfMessagesDelayed none).unit = some "Count" ∧
      (Sqs.approximateNumberOfMessagesNotVisible none).unit = some "Count" ∧
      (Sqs.approximateNumberOfMessagesVisible none).unit = some "Count" ∧
      (Sqs.numberOfEmptyReceives none).unit = some "Count" ∧
      (Sqs.numberOfMessagesDeleted none).unit = some "Count" ∧
      (Sqs.numberOfMessagesReceived none).unit = some "Count" ∧
      (Sqs.numberOfMessagesSent none).unit = some "Count" ∧
      (Sqs.sentMessageSize none).unit = some "Bytes" ∧
      (Cognito.compromisedCredentialsRisk none).unit = none ∧
      (Cognito.accountTakeOverRisk none).unit = none ∧
      (Cognito.overrideBlock none).unit = none ∧
      (Cognito.risk none).unit = none ∧
      (Cognito.noRisk none).unit = none) ∧
    (cs.unit = none →
      (Sqs.approximateAgeOfOldestMessage (some cs)).unit = some "Seconds" ∧
      (Sqs.approximateNumberOfMessagesDelayed (some cs)).unit = some "Count" ∧
      (Sqs.approximateNumberOfMessagesNotVisible (some cs)).unit = some "Count" ∧
      (Sqs.approximateNumberOfMessagesVisible (some cs)).unit = some "Count" ∧
      (Sqs.numberOfEmptyReceives (some cs)).unit = some "Count" ∧
      (Sqs.numberOfMessagesDeleted (some cs)).unit = some "Count" ∧
      (Sqs.numberOfMessagesReceived (some cs)).unit = some "Count" ∧
      (Sqs.numberOfMessagesSent (some cs)).unit = some "Count" ∧
      (Sqs.sentMessageSize (some cs)).unit = some "Bytes") ∧
    (cc.unit = none →
      (Cognito.compromisedCredentialsRisk (some cc)).unit = none ∧
      (Cognito.accountTakeOverRisk (some cc)).unit = none ∧
      (Cognito.overrideBlock (some cc)).unit = none ∧
      (Cognito.risk (some cc)).unit = none ∧
      (Cognito.noRisk (some cc)).unit = none) := by
  refine ⟨?_, ?_, fun hsu => ?_, fun hcu => ?_⟩ <;> repeat' apply And.intro
  all_goals
    simp [Sqs.approximateAgeOfOldestMessage, Sqs.approximateNumberOfMessagesDelayed,
      Sqs.approximateNumberOfMessagesNotVisible, Sqs.approximateNumberOfMessagesVisible,
      Sqs.numberOfEmptyReceives, Sqs.numberOfMessagesDeleted, Sqs.numberOfMessagesReceived,
      Sqs.numberOfMessagesSent, Sqs.sentMessageSize, Cognito.compromisedCredentialsRisk,
      Cognito.accountTakeOverRisk, Cognito.overrideBlock, Cognito.risk, Cognito.noRisk,
      Sqs.metric, Cognito.metric, Sqs.spreadDefaultUnit, Metric.ofArgs, Metric.withDimensions,
      sqsMetricArgs, cognitoMetricArgs, recordSet, *]

/-- Claim C4, witness: the amended theorem applied twice — once to a
reference-less change that does carry a unit override (the counterexample's
input, whose dimensions are nonetheless empty) and once to a change carrying
only a `statistic` (no reference and no unit), discharging the inner unit
hypotheses there. -/
theorem c4_witness :
    ({ unit := some "Count" } : SqsMetricChange).queue = none ∧
    ({ unit := some "Count" } : CognitoMetricChange).userPool = none ∧
    (Sqs.approximateAgeOfOldestMessage (some { unit := some "Count" })).dimensions = [] ∧
    (Cognito.compromisedCredentialsRisk (some { unit := some "Count" })).dimensions = [] ∧
    ({ statistic := some "Average" } : SqsMetricChange).queue = none ∧
    ({ statistic := some "Average" } : SqsMetricChange).unit = none ∧
    ({ statistic := some "Average" } : CognitoMetricChange).userPool = none ∧
    ({ statistic := some "Average" } : CognitoMetricChange).unit = none ∧
    (Sqs.approximateAgeOfOldestMessage (some { statistic := some "Average" })).unit = some "Seconds" ∧
    (Cognito.compromisedCredentialsRisk (some { statistic := some "Average" })).unit = none :=
  ⟨rfl, rfl,
    (c4_no_reference_empty_dimensions_and_default_unit
      { unit := some "Count" } { unit := some "Count" } rfl rfl).1.1.2,
    (c4_no_reference_empty_dimensions_and_default_unit
      { unit := some "Count" } { unit := some "Count" } rfl rfl).1.2.2.2.2.2.2.2.2.2.1.2,
    rfl, rfl, rfl, rfl,
    ((c4_no_reference_empty_dimensions_and_default_unit
      { statistic := some "Average" } { statistic := some "Average" } rfl rfl).2.2.1 rfl).1,
    ((c4_no_reference_empty_dimensions_and_default_unit
      { statistic := some "Average" } { statistic := some "Average" } rfl rfl).2.2.2 rfl).1⟩

/-- Claim C5: each SQS helper's descriptor has the documented default unit —
`"Seconds"` for `approximateAgeOfOldestMessage`, `"Bytes"` for
`sentMessageSize`, `"Count"` for the other seven — whenever the change
supplies no unit, and has the change's unit whenever one is supplied. -/
theorem c5_sqs_default_unit_and_override (c : SqsMetricChange) (u : String) :
    (c.unit = none →
      (Sqs.approximateAgeOfOldestMessage (some c)).unit = some "Seconds" ∧
      (Sqs.approximateNumberOfMessagesDelayed (some c)).unit = some "Count" ∧
      (Sqs.approximateNumberOfMessagesNotVisible (some c)).unit = some "Count" ∧
      (Sqs.approximateNumberOfMessagesVisible (some c)).unit = some "Count" ∧
      (Sqs.numberOfEmptyReceives (some c)).unit = some "Count" ∧
      (Sqs.numberOfMessagesDeleted (some c)).unit = some "Count" ∧
      (Sqs.numberOfMessagesReceived (some c)).unit = some "Count" ∧
      (Sqs.numberOfMessagesSent (some c)).unit = some "Count" ∧
      (Sqs.sentMessageSize (some c)).unit = some "Bytes") ∧
    (c.unit = some u →
      (Sqs.approximateAgeOfOldestMessage (some c)).unit = some u ∧
      (Sqs.approximateNumberOfMessagesDelayed (some c)).unit = some u ∧
      (Sqs.approximateNumberOfMessagesNotVisible (some c)).unit = some u ∧
      (Sqs.approximateNumberOfMessagesVisible (some c)).unit = some u ∧
      (Sqs.numberOfEmptyReceives (some c)).unit = some u ∧
      (Sqs.numberOfMessagesDeleted (some c)).unit = some u ∧
      (Sqs.numberOfMessagesReceived (some c)).unit = some u ∧
      (Sqs.numberOfMessagesSent (some c)).unit = some u ∧
      (Sqs.sentMessageSize (some c)).unit = some u) := by
  constructor <;> intro h <;> repeat' apply And.intro
  all_goals
    simp [Sqs.approximateAgeOfOldestMessage, Sqs.approximateNumberOfMessagesDelayed,
      Sqs.approximateNumberOfMessagesNotVisible, Sqs.approximateNumberOfMessagesVisible,
      Sqs.numberOfEmptyReceives, Sqs.numberOfMessagesDeleted, Sqs.numberOfMessagesReceived,
      Sqs.numberOfMessagesSent, Sqs.sentMessageSize,
      Sqs.metric, Sqs.spreadDefaultUnit, Metric.ofArgs, Metric.withDimensions,
      sqsMetricArgs, h]

/-- Claim C5, witness: the theorem applied once to a unit-less change and
once to the spec's example override `change.unit = "Bytes"`. -/
theorem c5_witness :
    ({} : SqsMetricChange).unit = none ∧
    ({ unit := some "Bytes" } : SqsMetricChange).unit = some "Bytes" ∧
    (Sqs.approximateAgeOfOldestMessage (some {})).unit = some "Seconds" ∧
    (Sqs.approximateAgeOfOldestMessage (some { unit := some "Bytes" })).unit = some "Bytes" :=
  ⟨rfl, rfl,
    ((c5_sqs_default_unit_and_override {} "Bytes").1 rfl).1,
    ((c5_sqs_default_unit_and_override { unit := some "Bytes" } "Bytes").2 rfl).1⟩

/-- Claim C6: every helper (and each underlying `metric` builder) is
deterministic — two invocations on field-for-field equal inputs return
field-for-field equal descriptors; as the embedding's descriptor equality is
structural, equal inputs giving equal descriptors is exactly that statement.
The source bodies read only their arguments (no counters, clocks or random
identifiers), which the embedding reflects by being plain functions. -/
theorem c6_helpers_deterministic
    (n₁ n₂ : SqsMetricName) (m₁ m₂ : CognitoMetricName)
    (cs₁ cs₂ : SqsMetricChange) (cc₁ cc₂ : CognitoMetricChange)
    (os₁ os₂ : Option SqsMetricChange) (oc₁ oc₂ : Option CognitoMetricChange)
    (hn : n₁ = n₂) (hm : m₁ = m₂) (hcs : cs₁ = cs₂) (hcc : cc₁ = cc₂)
    (hos : os₁ = os₂) (hoc : oc₁ = oc₂) :
    Sqs.metric n₁ cs₁ = Sqs.metric n₂ cs₂ ∧
    Cognito.metric m₁ cc₁ = Cognito.metric m₂ cc₂ ∧
    Sqs.approximateAgeOfOldestMessage os₁ = Sqs.approximateAgeOfOldestMessage os₂ ∧
    Sqs.approximateNumberOfMessagesDelayed os₁ = Sqs.approximateNumberOfMessagesDelayed os₂ ∧
    Sqs.approximateNumberOfMessagesNotVisible os₁ = Sqs.approximateNumberOfMessagesNotVisible os₂ ∧
    Sqs.approximateNumberOfMessagesVisible os₁ = Sqs.approximateNumberOfMessagesVisible os₂ ∧
    Sqs.numberOfEmptyReceives os₁ = Sqs.numberOfEmptyReceives os₂ ∧
    Sqs.numberOfMessagesDeleted os₁ = Sqs.numberOfMessagesDeleted os₂ ∧
    Sqs.numberOfMessagesReceived os₁ = Sqs.numberOfMessagesReceived os₂ ∧
    Sqs.numberOfMessagesSent os₁ = Sqs.numberOfMessagesSent os₂ ∧
    Sqs.sentMessageSize os₁ = Sqs.sentMessageSize os₂ ∧
    Cognito.compromisedCredentialsRisk oc₁ = Cognito.compromisedCredentialsRisk oc₂ ∧
    Cognito.accountTakeOverRisk oc₁ = Cognito.accountTakeOverRisk oc₂ ∧
    Cognito.overrideBlock oc₁ = Cognito.overrideBlock oc₂ ∧
    Cognito.risk oc₁ = Cognito.risk oc₂ ∧
    Cognito.noRisk oc₁ = Cognito.noRisk oc₂ := by
  subst hn hm hcs hcc hos hoc
  repeat' apply And.intro
  all_goals rfl

/-- Claim C6, witness: the theorem applied to two syntactically equal
concrete inputs. -/
theorem c6_witness :
    Sqs.sentMessageSize (some { queue := some { name := "q" } })
      = Sqs.sentMessageSize (some { queue := some { name := "q" } }) :=
  (c6_helpers_deterministic .SentMessageSize .SentMessageSize .Risk .Risk
    {} {} {} {} (some { queue := some { name := "q" } }) (some { queue := some { name := "q" } })
    none none rfl rfl rfl rfl rfl rfl).2.2.2.2.2.2.2.2.2.2.1

/-- Claim C7: for every metric name of either closed enumeration and every
well-typed change object (present or absent), the builder and every helper
return a descriptor; the embedding is total — there is no error value, no
validation step and no failure branch to model, matching the source, whose
bodies contain no `throw` and no reachable error path. -/
theorem c7_construction_total :
    (∀ (n : SqsMetricName) (c : SqsMetricChange), ∃ d : Metric, Sqs.metric n c = d) ∧
    (∀ (n : CognitoMetricName) (c : CognitoMetricChange), ∃ d : Metric, Cognito.metric n c = d) ∧
    (∀ c : Option SqsMetricChange,
      (∃ d : Metric, Sqs.approximateAgeOfOldestMessage c = d) ∧
      (∃ d : Metric, Sqs.approximateNumberOfMessagesDelayed c = d) ∧
      (∃ d : Metric, Sqs.approximateNumberOfMessagesNotVisible c = d) ∧
      (∃ d : Metric, Sqs.approximateNumberOfMessagesVisible c = d) ∧
      (∃ d : Metric, Sqs.numberOfEmptyReceives c = d) ∧
      (∃ d : Metric, Sqs.numberOfMessagesDeleted c = d) ∧
      (∃ d : Metric, Sqs.numberOfMessagesReceived c = d) ∧
      (∃ d : Metric, Sqs.numberOfMessagesSent c = d) ∧
      (∃ d : Metric, Sqs.sentMessageSize c = d)) ∧
    (∀ c : Option CognitoMetricChange,
      (∃ d : Metric, Cognito.compromisedCredentialsRisk c = d) ∧
      (∃ d : Metric, Cognito.accountTakeOverRisk c = d) ∧
      (∃ d : Metric, Cognito.overrideBlock c = d) ∧
      (∃ d : Metric, Cognito.risk c = d) ∧
      (∃ d : Metric, Cognito.noRisk c = d)) := by
  refine ⟨fun n c => ⟨_, rfl⟩, fun n c => ⟨_, rfl⟩, fun c => ?_, fun c => ?_⟩ <;>
    repeat' apply And.intro
  all_goals exact ⟨_, rfl⟩

/-- Claim C8: the builders are side-effect free — running the `metric` body
as an explicit state transformer over its mutable locals leaves the
caller-supplied change object exactly as it was (the only assignment targets
the fresh `dimensions` dictionary), and the descriptor produced equals the
one computed by the pure function of the inputs, so the result depends on
nothing but the arguments. -/
theorem c8_no_mutation_of_change
    (n : SqsMetricName) (m : CognitoMetricName) (s : SqsEvalState) (t : CognitoEvalState) :
    (Sqs.metricSt n s).2.changeObj = s.changeObj ∧
    (Sqs.metricSt n s).1 = Sqs.metric n s.changeObj ∧
    (Cognito.metricSt m t).2.changeObj = t.changeObj ∧
    (Cognito.metricSt m t).1 = Cognito.metric m t.changeObj := by
  cases hq : s.changeObj.queue <;> cases hp : t.changeObj.userPool <;>
    simp [Sqs.metricSt, Cognito.metricSt, Sqs.metric, Cognito.metric, hq, hp]

/-- Claim C9: no Cognito helper supplies a default unit — with no change
object, or with a change lacking a unit, the descriptor's unit is unset —
whereas every SQS helper always supplies one: its descriptor's unit is set
for every change object whatsoever. -/
theorem c9_cognito_has_no_default_unit
    (cc : CognitoMetricChange) (cs : SqsMetricChange) (hcu : cc.unit = none) :
    ((Cognito.compromisedCredentialsRisk none).unit = none ∧
      (Cognito.compromisedCredentialsRisk (some cc)).unit = none) ∧
    ((Cognito.accountTakeOverRisk none).unit = none ∧
      (Cognito.accountTakeOverRisk (some cc)).unit = none) ∧
    ((Cognito.overrideBlock none).unit = none ∧
      (Cognito.overrideBlock (some cc)).unit = none) ∧
    ((Cognito.risk none).unit = none ∧
      (Cognito.risk (some cc)).unit = none) ∧
    ((Cognito.noRisk none).unit = none ∧
      (Cognito.noRisk (some cc)).unit = none) ∧
    ((Sqs.approximateAgeOfOldestMessage none).unit.isSome = true ∧
      (Sqs.approximateAgeOfOldestMessage (some cs)).unit.isSome = true) ∧
    ((Sqs.approximateNumberOfMessagesDelayed none).unit.isSome = true ∧
      (Sqs.approximateNumberOfMessagesDelayed (some cs)).unit.isSome = true) ∧
    ((Sqs.approximateNumberOfMessagesNotVisible none).unit.isSome = true ∧
      (Sqs.approximateNumberOfMessagesNotVisible (some cs)).unit.isSome = true) ∧
    ((Sqs.approximateNumberOfMessagesVisible none).unit.isSome = true ∧
      (Sqs.approximateNumberOfMessagesVisible (some cs)).unit.isSome = true) ∧
    ((Sqs.numberOfEmptyReceives none).unit.isSome = true ∧
      (Sqs.numberOfEmptyReceives (some cs)).unit.isSome = true) ∧
    ((Sqs.numberOfMessagesDeleted none).unit.isSome = true ∧
      (Sqs.numberOfMessagesDeleted (some cs)).unit.isSome = true) ∧
    ((Sqs.numberOfMessagesReceived none).unit.isSome = true ∧
      (Sqs.numberOfMessagesReceived (some cs)).unit.isSome = true) ∧
    ((Sqs.numberOfMessagesSent none).unit.isSome = true ∧
      (Sqs.numberOfMessagesSent (some cs)).unit.isSome = true) ∧
    ((Sqs.sentMessageSize none).unit.isSome = true ∧
      (Sqs.sentMessageSize (some cs)).unit.isSome = true) := by
  cases hcs : cs.unit <;> repeat' apply And.intro
  all_goals
    simp [Sqs.approximateAgeOfOldestMessage, Sqs.approximateNumberOfMessagesDelayed,
      Sqs.approximateNumberOfMessagesNotVisible, Sqs.approximateNumberOfMessagesVisible,
      Sqs.numberOfEmptyReceives, Sqs.numberOfMessagesDeleted, Sqs.numberOfMessagesReceived,
      Sqs.numberOfMessagesSent, Sqs.sentMessageSize, Cognito.compromisedCredentialsRisk,
      Cognito.accountTakeOverRisk, Cognito.overrideBlock, Cognito.risk, Cognito.noRisk,
      Sqs.metric, Cognito.metric, Sqs.spreadDefaultUnit, Metric.ofArgs, Metric.withDimensions,
      sqsMetricArgs, cognitoMetricArgs, hcu, hcs]

/-- Claim C9, witness: the theorem applied to empty change objects. -/
theorem c9_witness :
    ({} : CognitoMetricChange).unit = none ∧
    (Cognito.compromisedCredentialsRisk (some {})).unit = none ∧
    (Cognito.noRisk none).unit = none ∧
    (Sqs.approximateAgeOfOldestMessage none).unit.isSome = true :=
  ⟨rfl,
    (c9_cognito_has_no_default_unit {} {} rfl).1.2,
    (c9_cognito_has_no_default_unit {} {} rfl).2.2.2.2.1.1,
    (c9_cognito_has_no_default_unit {} {} rfl).2.2.2.2.2.1.1⟩

/-- Claim C10: when the change carries a resource reference, the spread
`{ namespace: ..., name: ..., ...change }` passes the reference through: the
argument object handed to the `Metric` constructor holds the raw `queue`
(resp. `userPool`) reference alongside the fixed namespace, the metric name,
and the change's override fields. -/
theorem c10_constructor_args_carry_reference
    (n : SqsMetricName) (m : CognitoMetricName)
    (cs : SqsMetricChange) (cc : CognitoMetricChange) (q : Queue) (p : UserPool)
    (hq : cs.queue = some q) (hp : cc.userPool = some p) :
    ((sqsMetricArgs n cs).queue = some q ∧
      (sqsMetricArgs n cs).namespace_ = "AWS/SQS" ∧
      (sqsMetricArgs n cs).name = n.str ∧
      (sqsMetricArgs n cs).unit = cs.unit ∧
      (sqsMetricArgs n cs).statistic = cs.statistic ∧
      (sqsMetricArgs n cs).period = cs.period ∧
      (sqsMetricArgs n cs).dimensions = cs.dimensions) ∧
    ((cognitoMetricArgs m cc).userPool = some p ∧
      (cognitoMetricArgs m cc).namespace_ = "AWS/Cognito" ∧
      (cognitoMetricArgs m cc).name = m.str ∧
      (cognitoMetricArgs m cc).unit = cc.unit ∧
      (cognitoMetricArgs m cc).statistic = cc.statistic ∧
      (cognitoMetricArgs m cc).period = cc.period ∧
      (cognitoMetricArgs m cc).dimensions = cc.dimensions) := by
  repeat' apply And.intro
  all_goals simp [sqsMetricArgs, cognitoMetricArgs, hq, hp]

/-- Claim C10, witness: the theorem applied to a concrete change carrying a
queue reference and one carrying a user-pool reference. -/
theorem c10_witness :
    ({ queue := some { name := "jobs" } } : SqsMetricChange).queue = some { name := "jobs" } ∧
    ({ userPool := some { id := "pool-9" } } : CognitoMetricChange).userPool = some { id := "pool-9" } ∧
    (sqsMetricArgs .SentMessageSize { queue := some { name := "jobs" } }).queue
      = some { name := "jobs" } ∧
    (cognitoMetricArgs .Risk { userPool := some { id := "pool-9" } }).userPool
      = some { id := "pool-9" } :=
  ⟨rfl, rfl,
    (c10_constructor_args_carry_reference .SentMessageSize .Risk
      { queue := some { name := "jobs" } } { userPool := some { id := "pool-9" } }
      { name := "jobs" } { id := "pool-9" } rfl rfl).1.1,
    (c10_constructor_args_carry_reference .SentMessageSize .Risk
      { queue := some { name := "jobs" } } { userPool := some { id := "pool-9" } }
      { name := "jobs" } { id := "pool-9" } rfl rfl).2.1⟩
